import Mathlib

/-! Verification development for the voice-chat console monitor.
The Rust sources (socketlib.rs, datastructures.rs, main.rs) are shallowly
embedded below: pure decision logic becomes Lean functions, fallible code
returns Except, and code paths that abort the process are modelled by a
distinguished `panicked` outcome. Strings are handled at the character-list
level so that every Rust string primitive (split, trim, lines, replace) has
a direct, executable counterpart. -/

namespace VCM

/-- Error value carried by failing query operations
(datastructures.rs, `status_result::QueryError` with fields code/message). -/
structure QueryError where
  code : Int
  message : String
deriving DecidableEq

/-- Constructor `QueryError::static_empty_response` (datastructures.rs line 403). -/
def QueryError.static_empty_response : QueryError :=
  ⟨-1, "Expect result but none found."⟩

/-- Constructor `QueryError::channel_not_found` (datastructures.rs line 409). -/
def QueryError.channel_not_found : QueryError :=
  ⟨-2, "Channel not found"⟩

/-- Constructor `QueryError::database_id_error` (datastructures.rs line 415). -/
def QueryError.database_id_error : QueryError :=
  ⟨-3, "Can't get self database_id"⟩

/-- Conversion `From<anyhow::Error> for QueryError` (datastructures.rs line 443):
code -2, message taken from the underlying error text. -/
def QueryError.fromAnyhow (msg : String) : QueryError :=
  ⟨-2, msg⟩

/-- Parsed status line (datastructures.rs, `query_status::QueryStatus`). -/
structure QueryStatus where
  id : Int
  msg : String
deriving DecidableEq

/-- Method `QueryStatus::into_err` (datastructures.rs line 218). -/
def QueryStatus.into_err (s : QueryStatus) : QueryError :=
  ⟨s.id, s.msg⟩

/-- Method `QueryStatus::into_result` (datastructures.rs line 222):
id 0 is success, anything else becomes an error. -/
def QueryStatus.into_result (s : QueryStatus) (ret : α) : Except QueryError α :=
  if s.id = 0 then Except.ok ret else Except.error s.into_err

/-- Outcome of a code path that may succeed, fail with a `QueryError`,
or abort the process via a Rust panic. -/
inductive POutcome (α : Type) where
  | ok (val : α)
  | err (e : QueryError)
  | panicked
deriving DecidableEq

/-- Enum `RequestStatus` (main.rs line 85). -/
inductive RequestStatus where
  | Online
  | TargetDetected
  | DuplicateClient
  | NotOnline
deriving DecidableEq

/-- Function `get_duration` (main.rs lines 199-214); durations are in seconds,
`none` models the `unreachable` arms (times = 0 for the backoff branch). -/
def get_duration (interval : Nat) (times : Nat) (ret : RequestStatus) : Option Nat :=
  match ret with
  | .Online => some (interval * 60)
  | .TargetDetected | .DuplicateClient =>
    (match times with
     | 1 => some 5
     | 2 => some 30
     | _ + 3 => some 60
     | _ => none).map (fun m => m * 60)
  | .NotOnline => none

/-- Parsed `whoami` reply (datastructures.rs, `whoami::WhoAmI`:
clid renamed to client_id, cid renamed to channel_id). -/
structure WhoAmI where
  client_id : Int
  channel_id : Int
deriving DecidableEq

/-- Action chosen by one iteration of the monitor entry loop
(main.rs lines 237-255): success leaves the loop for steady monitoring,
code 1794 runs `check_online_in_offline`, any other error aborts the run. -/
inductive LoopAction where
  | enterSteady
  | readiness
  | abort (e : QueryError)
deriving DecidableEq

/-- One iteration of the `while let Err(e) = conn.who_am_i()` entry loop
(main.rs lines 238-254). -/
def running_loop_step (r : Except QueryError WhoAmI) : LoopAction :=
  match r with
  | .ok _ => .enterSteady
  | .error e => if e.code = 1794 then .readiness else .abort e

/-- ASCII whitespace test used to model Rust `str::trim`. -/
def isWsChar (c : Char) : Bool :=
  c = ' ' || c = '\t' || c = '\n' || c = '\r'

/-- Model of Rust `str::trim` on the character list of a line. -/
def trimChars (l : List Char) : List Char :=
  ((l.dropWhile isWsChar).reverse.dropWhile isWsChar).reverse

/-- Model of Rust `str::split` with a single-character pattern: always yields
at least one (possibly empty) segment. -/
def splitOnChar (c : Char) : List Char → List (List Char)
  | [] => [[]]
  | x :: xs =>
    match splitOnChar c xs with
    | [] => [[]]
    | y :: ys => if x = c then [] :: y :: ys else (x :: y) :: ys

/-- Drop a single trailing carriage return (Rust `lines()` strips it from
every newline-terminated line). -/
def stripCr (l : List Char) : List Char :=
  match l.reverse with
  | '\r' :: rest => rest.reverse
  | _ => l

/-- Model of Rust `str::lines`: split on newline, drop the final empty
segment produced by a trailing newline, and strip the carriage return of
each newline-terminated line. -/
def rustLines (s : String) : List (List Char) :=
  match (splitOnChar '\n' s.data).reverse with
  | [] => []
  | last :: revInit =>
    let front := (revInit.reverse).map stripCr
    if last.isEmpty then front else front ++ [last]

/-- Model of Rust `str::split_once`: split at the first occurrence of `pat`,
returning the text before and after it. -/
def splitOnceList (pat : List Char) : List Char → Option (List Char × List Char)
  | [] => none
  | x :: xs =>
    if pat.isPrefixOf (x :: xs) then some ([], (x :: xs).drop pat.length)
    else (splitOnceList pat xs).map (fun p => (x :: p.1, p.2))

/-- Decimal digit-run parsing used to model Rust integer `FromStr`
(overflow is not modelled). -/
def parseDigits : List Char → Option Nat
  | [] => none
  | ds =>
    ds.foldl
      (fun acc c =>
        match acc with
        | none => none
        | some n => if c.isDigit then some (n * 10 + (c.toNat - 48)) else none)
      (some 0)

/-- Model of Rust `i64::from_str` / `i32::from_str`: optional sign and a
non-empty run of decimal digits. -/
def parseInt (s : String) : Option Int :=
  match s.data with
  | '-' :: rest => (parseDigits rest).map (fun n => -(n : Int))
  | '+' :: rest => (parseDigits rest).map (fun n => (n : Int))
  | l => (parseDigits l).map (fun n => (n : Int))

/-- One stage of `SocketConn::escape`: Rust `str::replace` with a
single-character pattern (socketlib.rs lines 142-146). -/
def replaceChar (c : Char) (rep : List Char) : List Char → List Char
  | [] => []
  | x :: xs => (if x = c then rep else [x]) ++ replaceChar c rep xs

/-- Function `SocketConn::escape` (socketlib.rs lines 142-146): backslash
first, then space, then forward slash. -/
def escapeChars (l : List Char) : List Char :=
  replaceChar '/' ['\\', '/']
    (replaceChar ' ' ['\\', 's']
      (replaceChar '\\' ['\\', '\\'] l))

/-- Function `SocketConn::escape` lifted to strings. -/
def escape (s : String) : String :=
  String.mk (escapeChars s.data)

/-- Modelled from the spec: the record-value decoding that reverses the three
escape sequences (spec section 3, RecordRow). The concrete decoder lives in
the external serde_teamspeak_querystring crate, not in this repository; the
spec's sequences are reversed in a single left-to-right scan. -/
def unescapeChars : List Char → List Char
  | [] => []
  | [c] => [c]
  | c1 :: c2 :: rest =>
    if c1 = '\\' then
      if c2 = '\\' then '\\' :: unescapeChars rest
      else if c2 = 's' then ' ' :: unescapeChars rest
      else if c2 = '/' then '/' :: unescapeChars rest
      else c1 :: unescapeChars (c2 :: rest)
    else c1 :: unescapeChars (c2 :: rest)

/-- Modelled from the spec: unescaping lifted to strings. -/
def unescape (s : String) : String :=
  String.mk (unescapeChars s.data)

/-- Modelled from the spec: one `key=value` token of a record row (spec
section 6); the value is unescaped, a token without `=` binds the empty
value. -/
def parseToken (tok : List Char) : String × String :=
  match splitOnceList ['='] tok with
  | some kv => (String.mk kv.1, String.mk (unescapeChars kv.2))
  | none => (String.mk tok, "")

/-- Modelled from the spec: the key-value pairs of one record row
(whitespace-separated `key=value` tokens, spec sections 3 and 6). -/
def recordPairsL (l : List Char) : List (String × String) :=
  ((splitOnChar ' ' l).filter (fun t => !t.isEmpty)).map parseToken

/-- First value bound to a key in a record row. -/
def lookupKey (pairs : List (String × String)) (k : String) : Option String :=
  (pairs.find? (fun p => p.1 == k)).map (fun p => p.2)

/-- Implementation of `TryFrom<&str> for QueryStatus` (datastructures.rs
lines 230-240): split at `error `, then deserialize the `id` and `msg`
fields (field decoding modelled from the spec, the deserializer being the
external querystring crate). A failed parse surfaces as the anyhow error
converted into a `QueryError`. -/
def statusTryFrom (value : String) : Except QueryError QueryStatus :=
  match splitOnceList "error ".data value.data with
  | none => Except.error (QueryError.fromAnyhow "Split error")
  | some p =>
    let pairs := recordPairsL p.2
    match lookupKey pairs "id", lookupKey pairs "msg" with
    | some i, some m =>
      match parseInt i with
      | some n => Except.ok ⟨n, m⟩
      | none => Except.error (QueryError.fromAnyhow "Got error while parse string")
    | _, _ => Except.error (QueryError.fromAnyhow "Got error while parse string")

/-- Function `SocketConn::decode_status` (socketlib.rs lines 62-77): find the
first line whose trimmed text starts with `error `, parse it, and apply
`into_result`; when no such line exists the source aborts the process. -/
def decode_status (content : String) : POutcome String :=
  match (rustLines content).find? (fun line => "error ".data.isPrefixOf (trimChars line)) with
  | none => POutcome.panicked
  | some line =>
    match statusTryFrom (String.mk line) with
    | Except.error e => POutcome.err e
    | Except.ok status =>
      match status.into_result content with
      | Except.ok c => POutcome.ok c
      | Except.error e => POutcome.err e

/-- Left-to-right record decoding of the `|`-separated segments, stopping at
the first failing segment (the propagation inside the loop of
`decode_status_with_result`). -/
def traverseParse (f : String → Except QueryError α) : List (List Char) → Except QueryError (List α)
  | [] => Except.ok []
  | x :: xs =>
    match f (String.mk x) with
    | Except.error e => Except.error e
    | Except.ok a =>
      match traverseParse f xs with
      | Except.error e => Except.error e
      | Except.ok tl => Except.ok (a :: tl)

/-- Function `SocketConn::decode_status_with_result` (socketlib.rs lines
79-94): after status decoding, the first line not starting with `error `
(no trimming here, unlike `decode_status`) is split on `|` and each segment
parsed; absence of such a line yields `none`. -/
def decode_status_with_result (f : String → Except QueryError α) (data : String) :
    POutcome (Option (List α)) :=
  match decode_status data with
  | POutcome.panicked => POutcome.panicked
  | POutcome.err e => POutcome.err e
  | POutcome.ok content =>
    match (rustLines content).find? (fun line => !("error ".data.isPrefixOf line)) with
    | some line =>
      match traverseParse f (splitOnChar '|' line) with
      | Except.error e => POutcome.err e
      | Except.ok v => POutcome.ok (some v)
    | none => POutcome.ok none

/-- Decoding half of `SocketConn::query_operation_non_error` (socketlib.rs
lines 121-130): a `none` result is turned into a process abort by the
panicking closure inside `ok_or_else`. -/
def query_operation_decode (f : String → Except QueryError α) (data : String) :
    POutcome (List α) :=
  match decode_status_with_result f data with
  | POutcome.ok (some v) => POutcome.ok v
  | POutcome.ok none => POutcome.panicked
  | POutcome.err e => POutcome.err e
  | POutcome.panicked => POutcome.panicked

/-- One call of `query_operation_non_error` seen against the stream of
replies the session could deliver: the source performs exactly one
write+read cycle and decodes only that first reply; `rest` holds the
replies any further cycle would have consumed, and the source never
issues one. -/
def query_operation_session (f : String → Except QueryError α) (first : String)
    (_rest : List String) : POutcome (List α) :=
  query_operation_decode f first

/-- Field decoding for `WhoAmI` (datastructures.rs lines 25-31: clid and cid,
both parsed from strings to integers); the token grammar is modelled from
the spec since the deserializer is an external crate. -/
def whoAmIFromQuery (data : String) : Except QueryError WhoAmI :=
  let pairs := recordPairsL data.data
  match lookupKey pairs "clid", lookupKey pairs "cid" with
  | some a, some b =>
    match parseInt a, parseInt b with
    | some x, some y => Except.ok ⟨x, y⟩
    | _, _ => Except.error (QueryError.fromAnyhow "Got parser error")
  | _, _ => Except.error (QueryError.fromAnyhow "Got parser error")

/-- Decoding half of `SocketConn::who_am_i` (socketlib.rs lines 176-180):
the extraction `v.remove(0)` aborts when the vector is empty. -/
def who_am_i_decode (data : String) : POutcome WhoAmI :=
  match query_operation_decode whoAmIFromQuery data with
  | POutcome.ok [] => POutcome.panicked
  | POutcome.ok (w :: _) => POutcome.ok w
  | POutcome.err e => POutcome.err e
  | POutcome.panicked => POutcome.panicked

/-- Parsed client record (datastructures.rs, `client::Client`). -/
structure Client where
  clid : Int
  cid : Int
  client_database_id : Int
  client_type : Int
  client_nickname : String
deriving DecidableEq

/-- Accessor `Client::client_id` (datastructures.rs line 126). -/
def Client.client_id (c : Client) : Int :=
  c.clid

/-- Field decoding for `Client` (datastructures.rs lines 110-122); grammar
modelled from the spec as above. -/
def clientFromQuery (data : String) : Except QueryError Client :=
  let pairs := recordPairsL data.data
  match lookupKey pairs "clid", lookupKey pairs "cid", lookupKey pairs "client_database_id",
      lookupKey pairs "client_type", lookupKey pairs "client_nickname" with
  | some a, some b, some c, some d, some n =>
    match parseInt a, parseInt b, parseInt c, parseInt d with
    | some w, some x, some y, some z => Except.ok ⟨w, x, y, z, n⟩
    | _, _, _, _ => Except.error (QueryError.fromAnyhow "Got parser error")
  | _, _, _, _, _ => Except.error (QueryError.fromAnyhow "Got parser error")

/-- Parsed channel record (datastructures.rs, `channel::Channel`). -/
structure Channel where
  cid : Int
  pid : Int
  channel_order : Int
  channel_name : String
  total_clients : Int
deriving DecidableEq

/-- Field decoding for `Channel` (datastructures.rs lines 70-80); grammar
modelled from the spec as above. -/
def channelFromQuery (data : String) : Except QueryError Channel :=
  let pairs := recordPairsL data.data
  match lookupKey pairs "cid", lookupKey pairs "pid", lookupKey pairs "channel_order",
      lookupKey pairs "channel_name", lookupKey pairs "total_clients" with
  | some a, some b, some c, some n, some e =>
    match parseInt a, parseInt b, parseInt c, parseInt e with
    | some w, some x, some y, some z => Except.ok ⟨w, x, y, n, z⟩
    | _, _, _, _ => Except.error (QueryError.fromAnyhow "Got parser error")
  | _, _, _, _, _ => Except.error (QueryError.fromAnyhow "Got parser error")

/-- Outcome of one `read_data` call (socketlib.rs lines 16-42): a timeout
with nothing received yields the `none` sentinel, otherwise the accumulated
chunk or an I/O failure. -/
inductive ReadOutcome where
  | timeout
  | chunk (data : String)
  | ioFailure (msg : String)

/-- Errors `delay_read` can surface. -/
inductive DelayError where
  | ioError (msg : String)
  | readNoneData
deriving DecidableEq

/-- Terminal-marker test of `delay_read` (socketlib.rs line 104). -/
def hasTerminalLine (s : String) : Bool :=
  (rustLines s).any (fun line => "error id=".data.isPrefixOf (trimChars line))

/-- Function `SocketConn::delay_read` (socketlib.rs lines 96-109) run against
a finite trace of `read_data` outcomes; the result `none` means the loop is
still running when the trace ends. The source converts the `none` sentinel
of `read_data` into the error `READ NONE DATA` via `ok_or_else`. -/
def delay_read : List ReadOutcome → String → Option (Except DelayError String)
  | [], _ => none
  | o :: rest, acc =>
    match o with
    | ReadOutcome.ioFailure m => some (Except.error (DelayError.ioError m))
    | ReadOutcome.timeout => some (Except.error DelayError.readNoneData)
    | ReadOutcome.chunk r =>
      if hasTerminalLine (acc ++ r) then some (Except.ok (acc ++ r))
      else delay_read rest (acc ++ r)

/-- Database-id resolution loop of `check_self_duplicate` (socketlib.rs
lines 286-291): the database id of the last listed client whose client id
matches the whoami reply, 0 when none matches. -/
def resolve_database_id (my : WhoAmI) (clients : List Client) : Int :=
  clients.foldl
    (fun acc c => if c.client_id = my.client_id then c.client_database_id else acc) 0

/-- Function `SocketConn::check_self_duplicate` (socketlib.rs lines 283-301)
on already-fetched whoami and client-list replies. -/
def check_self_duplicate (my : WhoAmI) (clients : List Client) : Except QueryError Bool :=
  let database_id := resolve_database_id my clients
  if database_id = 0 then Except.error QueryError.database_id_error
  else
    Except.ok
      (decide (1 < (clients.filter (fun n => n.client_database_id == database_id)).length))

/-- Presence computation of the steady-state tick (main.rs lines 38-41). -/
def tickPresent (monitor : List Int) (clients : List Client) : Bool :=
  clients.any (fun client => monitor.contains client.client_database_id)

/-- Playback commands of the companion controller. -/
inductive VlcCmd where
  | pause
  | play
deriving DecidableEq

/-- Observable effects of one steady-state tick. -/
structure TickResult where
  exited : Bool
  dupDisconnect : Bool
  vlc : Option VlcCmd
deriving DecidableEq

/-- One iteration of the steady-state loop of `real_staff` (main.rs lines
27-80) after the client list and the companion status have been fetched:
the forced-exit branch, the duplicate-session guard, and the playback
toggle, in source order. -/
def real_staff_tick (monitor : List Int) (need_exit : Bool) (database_id : Int)
    (clients : List Client) (status : Bool) : TickResult :=
  let cared_user := tickPresent monitor clients
  if cared_user && need_exit then
    ⟨true, false, none⟩
  else
    let dup := decide (1 < (clients.filter (fun n => n.client_database_id == database_id)).length)
    let vlc :=
      if status = cared_user then some (if status then VlcCmd.pause else VlcCmd.play)
      else none
    ⟨false, dup, vlc⟩

/-- Per-character description of the escape mapping, used to reason about
the three sequential replaces of `SocketConn::escape`. -/
def escCharOne (x : Char) : List Char :=
  if x = '\\' then ['\\', '\\']
  else if x = ' ' then ['\\', 's']
  else if x = '/' then ['\\', '/']
  else [x]

deriving instance DecidableEq for Except

/-- C5: during the monitor entry loop, a `who_am_i` failure with status code
1794 routes to the readiness-resolution routine, and a failure with any other
code (in particular any other non-zero code) aborts the run with that error. -/
theorem c5_whoami_1794_routing (e : QueryError) :
    (e.code = 1794 → running_loop_step (Except.error e) = LoopAction.readiness) ∧
    (e.code ≠ 1794 → running_loop_step (Except.error e) = LoopAction.abort e) := by
  constructor
  · intro h
    simp [running_loop_step, h]
  · intro h
    simp [running_loop_step, h]

/-- Witness for c5_whoami_1794_routing at concrete error values. -/
theorem c5_whoami_1794_routing_witness :
    running_loop_step (Except.error ⟨1794, "not connected"⟩) = LoopAction.readiness ∧
    running_loop_step (Except.error ⟨2, "x"⟩) = LoopAction.abort ⟨2, "x"⟩ :=
  ⟨(c5_whoami_1794_routing ⟨1794, "not connected"⟩).1 rfl,
   (c5_whoami_1794_routing ⟨2, "x"⟩).2 (by decide)⟩

/-- C6: after a TargetDetected or DuplicateClient outcome the backoff duration
is 300 s at attempt 1, 1800 s at attempt 2, 3600 s at every attempt at least 3,
and it is monotonically non-decreasing (hence capped) over attempts at least 1. -/
theorem c6_backoff_monotone_capped (interval : Nat) (st : RequestStatus)
    (hst : st = RequestStatus.TargetDetected ∨ st = RequestStatus.DuplicateClient) :
    get_duration interval 1 st = some 300 ∧
    get_duration interval 2 st = some 1800 ∧
    (∀ n, 3 ≤ n → get_duration interval n st = some 3600) ∧
    (∀ m n a b, 1 ≤ m → m ≤ n → get_duration interval m st = some a →
      get_duration interval n st = some b → a ≤ b) := by
  have h1 : get_duration interval 1 st = some 300 := by
    rcases hst with h | h <;> subst h <;> rfl
  have h2 : get_duration interval 2 st = some 1800 := by
    rcases hst with h | h <;> subst h <;> rfl
  have h3 : ∀ n, 3 ≤ n → get_duration interval n st = some 3600 := by
    intro n hn
    obtain ⟨k, rfl⟩ : ∃ k, n = k + 3 := ⟨n - 3, by omega⟩
    rcases hst with h | h <;> subst h <;> rfl
  refine ⟨h1, h2, h3, ?_⟩
  intro m n a b hm hmn ha hb
  have hmc : m = 1 ∨ m = 2 ∨ 3 ≤ m := by omega
  have hnc : n = 1 ∨ n = 2 ∨ 3 ≤ n := by omega
  rcases hmc with rfl | rfl | hm3
  · have ha2 : a = 300 := by rw [h1] at ha; exact (Option.some.inj ha).symm
    rcases hnc with rfl | rfl | hn3
    · have hb2 : b = 300 := by rw [h1] at hb; exact (Option.some.inj hb).symm
      omega
    · have hb2 : b = 1800 := by rw [h2] at hb; exact (Option.some.inj hb).symm
      omega
    · have hb2 : b = 3600 := by rw [h3 n hn3] at hb; exact (Option.some.inj hb).symm
      omega
  · have ha2 : a = 1800 := by rw [h2] at ha; exact (Option.some.inj ha).symm
    rcases hnc with rfl | rfl | hn3
    · omega
    · have hb2 : b = 1800 := by rw [h2] at hb; exact (Option.some.inj hb).symm
      omega
    · have hb2 : b = 3600 := by rw [h3 n hn3] at hb; exact (Option.some.inj hb).symm
      omega
  · have ha2 : a = 3600 := by rw [h3 m hm3] at ha; exact (Option.some.inj ha).symm
    have hn3 : 3 ≤ n := by omega
    have hb2 : b = 3600 := by rw [h3 n hn3] at hb; exact (Option.some.inj hb).symm
    omega

/-- Witness for c6_backoff_monotone_capped at concrete attempts. -/
theorem c6_backoff_monotone_capped_witness :
    get_duration 1 1 RequestStatus.TargetDetected = some 300 ∧
    get_duration 1 5 RequestStatus.DuplicateClient = some 3600 :=
  ⟨(c6_backoff_monotone_capped 1 RequestStatus.TargetDetected (Or.inl rfl)).1,
   (c6_backoff_monotone_capped 1 RequestStatus.DuplicateClient (Or.inr rfl)).2.2.1 5
     (by decide)⟩

/-- C1 counterexample: the input "foo" has no line that (after trimming)
starts with `error `, and decode_status aborts the process on it instead of
returning a StatusNotFound or ProtocolError error value. -/
theorem c1_no_status_counterexample :
    decode_status "foo" = POutcome.panicked ∧
    (rustLines "foo").all (fun line => !("error ".data.isPrefixOf (trimChars line))) = true := by
  refine ⟨by decide, by decide⟩

/-- C1 (amended): for every input string containing no line that (after
trimming) starts with `error `, decode_status neither succeeds nor returns
an error value — it aborts via the panic at the end of the scan. -/
theorem c1_no_status_line_panics (content : String)
    (h : (rustLines content).all
      (fun line => !("error ".data.isPrefixOf (trimChars line))) = true) :
    decode_status content = POutcome.panicked := by
  have hfind : (rustLines content).find?
      (fun line => "error ".data.isPrefixOf (trimChars line)) = none := by
    rw [List.find?_eq_none]
    intro x hx
    have hx2 := List.all_eq_true.mp h x hx
    simp only [Bool.not_eq_true'] at hx2
    simp [hx2]
  unfold decode_status
  rw [hfind]

/-- Witness for c1_no_status_line_panics at a concrete input. -/
theorem c1_no_status_line_panics_witness : decode_status "bar" = POutcome.panicked :=
  c1_no_status_line_panics "bar" (by decide)

/-- C2 counterexample: a single "no data yet" sentinel from read() makes
delay_read fail with the error READ NONE DATA, so the timeout sentinel is
surfaced as a failure rather than discarded. -/
theorem c2_timeout_surfaced_counterexample :
    delay_read [ReadOutcome.timeout] "" = some (Except.error DelayError.readNoneData) := rfl

/-- C2 (amended): delay_read keeps appending successful read() chunks until
an accumulated line (after trimming) starts with `error id=`, but it does
not discard the "no data yet" sentinel: a sentinel is immediately surfaced
as the failure READ NONE DATA. -/
theorem c2_delay_read_behaviour :
    (∀ (trace : List ReadOutcome) (acc s : String),
      delay_read trace acc = some (Except.ok s) → hasTerminalLine s = true) ∧
    (∀ (trace : List ReadOutcome) (acc : String),
      delay_read (ReadOutcome.timeout :: trace) acc =
        some (Except.error DelayError.readNoneData)) := by
  constructor
  · intro trace
    induction trace with
    | nil =>
      intro acc s h
      simp [delay_read] at h
    | cons o rest ih =>
      intro acc s h
      cases o with
      | ioFailure m => simp [delay_read] at h
      | timeout => simp [delay_read] at h
      | chunk r =>
        by_cases hterm : hasTerminalLine (acc ++ r) = true
        · have heq : delay_read (ReadOutcome.chunk r :: rest) acc =
              some (Except.ok (acc ++ r)) := by
            simp [delay_read, hterm]
          rw [heq] at h
          have hs : acc ++ r = s := by
            simpa using h
          rw [← hs]
          exact hterm
        · have hterm2 : hasTerminalLine (acc ++ r) = false := by
            simpa using hterm
          have heq : delay_read (ReadOutcome.chunk r :: rest) acc =
              delay_read rest (acc ++ r) := by
            simp [delay_read, hterm2]
          rw [heq] at h
          exact ih (acc ++ r) s h
  · intro trace acc
    rfl

/-- Witness for c2_delay_read_behaviour at a concrete trace. -/
theorem c2_delay_read_behaviour_witness :
    hasTerminalLine ("" ++ "error id=0 msg=ok\n\r") = true ∧
    delay_read [ReadOutcome.timeout] "x" = some (Except.error DelayError.readNoneData) :=
  ⟨c2_delay_read_behaviour.1 [ReadOutcome.chunk "error id=0 msg=ok\n\r"] ""
     ("" ++ "error id=0 msg=ok\n\r") (by decide),
   c2_delay_read_behaviour.2 [] "x"⟩

/-- C3: with a reply holding only the status line (no data line), the
record-returning query path aborts the process through the panicking
closure instead of returning the ResultNotFound error value
(`QueryError::static_empty_response`, which the source defines but never
uses). -/
theorem c3_missing_data_line_panics :
    query_operation_decode clientFromQuery "error id=0 msg=ok" =
      (POutcome.panicked : POutcome (List Client)) ∧
    query_operation_decode channelFromQuery "error id=0 msg=ok" =
      (POutcome.panicked : POutcome (List Channel)) ∧
    (POutcome.panicked : POutcome (List Client)) ≠
      POutcome.err QueryError.static_empty_response := by
  refine ⟨by decide, by decide, by decide⟩

/-- C4 counterexample: a first reply whose record fails to parse makes the
operation return the parse error even though a second write+read cycle with
a well-formed reply was available and would have succeeded — so no
record-returning operation retries on the parse-error kind. -/
theorem c4_no_retry_counterexample :
    query_operation_session whoAmIFromQuery "banana\nerror id=0 msg=ok"
        ["clid=5 cid=7\nerror id=0 msg=ok"] =
      POutcome.err (QueryError.fromAnyhow "Got parser error") ∧
    query_operation_decode whoAmIFromQuery "clid=5 cid=7\nerror id=0 msg=ok" =
      POutcome.ok [⟨5, 7⟩] := by
  refine ⟨by decide, by decide⟩

/-- C4 (amended): no record-returning query operation retries — every error
kind, the parse-error kind included, propagates from the single decode of
the single reply consumed, whatever further replies a retry could have
used. -/
theorem c4_no_retry (α : Type) (f : String → Except QueryError α) (first : String)
    (rest : List String) (e : QueryError)
    (h : query_operation_decode f first = POutcome.err e) :
    query_operation_session f first rest = POutcome.err e := h

/-- Witness for c4_no_retry at a concrete failed decode. -/
theorem c4_no_retry_witness :
    query_operation_session whoAmIFromQuery "banana\nerror id=0 msg=ok" ["ignored"] =
      POutcome.err (QueryError.fromAnyhow "Got parser error") :=
  c4_no_retry WhoAmI whoAmIFromQuery "banana\nerror id=0 msg=ok" ["ignored"]
    (QueryError.fromAnyhow "Got parser error") (by decide)

theorem replaceChar_append (c : Char) (rep a b : List Char) :
    replaceChar c rep (a ++ b) = replaceChar c rep a ++ replaceChar c rep b := by
  induction a with
  | nil => rfl
  | cons x xs ih => simp [replaceChar, ih]

theorem escapeChars_cons (x : Char) (l : List Char) :
    escapeChars (x :: l) = escCharOne x ++ escapeChars l := by
  have step : escapeChars (x :: l) =
      replaceChar '/' ['\\', '/']
        (replaceChar ' ' ['\\', 's'] (if x = '\\' then ['\\', '\\'] else [x])) ++
      escapeChars l := by
    unfold escapeChars
    rw [show replaceChar '\\' ['\\', '\\'] (x :: l) =
        (if x = '\\' then ['\\', '\\'] else [x]) ++ replaceChar '\\' ['\\', '\\'] l from rfl]
    rw [replaceChar_append, replaceChar_append]
  rw [step]
  congr 1
  by_cases h1 : x = '\\'
  · subst h1
    rfl
  · by_cases h2 : x = ' '
    · subst h2
      rfl
    · by_cases h3 : x = '/'
      · subst h3
        rfl
      · simp [escCharOne, h1, h2, h3, replaceChar]

theorem unescapeChars_bsbs (t : List Char) :
    unescapeChars ('\\' :: '\\' :: t) = '\\' :: unescapeChars t := rfl

theorem unescapeChars_bss (t : List Char) :
    unescapeChars ('\\' :: 's' :: t) = ' ' :: unescapeChars t := rfl

theorem unescapeChars_bsslash (t : List Char) :
    unescapeChars ('\\' :: '/' :: t) = '/' :: unescapeChars t := rfl

theorem unescapeChars_other (c : Char) (h : c ≠ '\\') (t : List Char) :
    unescapeChars (c :: t) = c :: unescapeChars t := by
  cases t with
  | nil => rfl
  | cons d t2 =>
    show unescapeChars (c :: d :: t2) = c :: unescapeChars (d :: t2)
    simp only [unescapeChars]
    rw [if_neg h]

theorem unescapeChars_escapeChars (l : List Char) :
    unescapeChars (escapeChars l) = l := by
  induction l with
  | nil => rfl
  | cons x t ih =>
    rw [escapeChars_cons]
    by_cases h1 : x = '\\'
    · subst h1
      rw [show escCharOne '\\' = ['\\', '\\'] from rfl]
      rw [show (['\\', '\\'] : List Char) ++ escapeChars t =
          '\\' :: '\\' :: escapeChars t from rfl]
      rw [unescapeChars_bsbs, ih]
    · by_cases h2 : x = ' '
      · subst h2
        rw [show escCharOne ' ' = ['\\', 's'] from rfl]
        rw [show (['\\', 's'] : List Char) ++ escapeChars t =
            '\\' :: 's' :: escapeChars t from rfl]
        rw [unescapeChars_bss, ih]
      · by_cases h3 : x = '/'
        · subst h3
          rw [show escCharOne '/' = ['\\', '/'] from rfl]
          rw [show (['\\', '/'] : List Char) ++ escapeChars t =
              '\\' :: '/' :: escapeChars t from rfl]
          rw [unescapeChars_bsslash, ih]
        · rw [show escCharOne x = [x] from by simp [escCharOne, h1, h2, h3]]
          rw [show ([x] : List Char) ++ escapeChars t = x :: escapeChars t from rfl]
          rw [unescapeChars_other x h1, ih]

/-- C7: unescape inverts escape on every string (escape replaces backslash,
then space, then forward slash, so the inserted backslashes are never
re-escaped), and consequently escape is injective. -/
theorem c7_escape_roundtrip :
    (∀ s : String, unescape (escape s) = s) ∧
    (∀ a b : String, escape a = escape b → a = b) := by
  have rt : ∀ s : String, unescape (escape s) = s := by
    intro s
    cases s with
    | mk d =>
      show String.mk (unescapeChars (escapeChars d)) = String.mk d
      rw [unescapeChars_escapeChars]
  refine ⟨rt, ?_⟩
  intro a b h
  rw [← rt a, ← rt b, h]

/-- Witness for c7_escape_roundtrip at a concrete string (the injectivity
component applied with its hypothesis discharged by rfl). -/
theorem c7_escape_roundtrip_witness :
    unescape (escape "a b\\/c") = "a b\\/c" ∧ ("q" : String) = "q" :=
  ⟨c7_escape_roundtrip.1 "a b\\/c", c7_escape_roundtrip.2 "q" "q" rfl⟩

/-- C8: check_self_duplicate fails with database_id_error precisely when the
resolved database id (taken from the client record whose client id equals
the whoami client id) is zero, and otherwise returns true iff at least two
client records share that resolved database id. -/
theorem c8_check_self_duplicate (my : WhoAmI) (clients : List Client) :
    (resolve_database_id my clients = 0 →
      check_self_duplicate my clients = Except.error QueryError.database_id_error) ∧
    (resolve_database_id my clients ≠ 0 →
      (check_self_duplicate my clients = Except.ok true ↔
        2 ≤ (clients.filter
          (fun n => n.client_database_id == resolve_database_id my clients)).length)) := by
  constructor
  · intro h
    simp [check_self_duplicate, h]
  · intro h
    simp only [check_self_duplicate]
    rw [if_neg h]
    simp only [Except.ok.injEq, decide_eq_true_eq]
    omega

/-- Witness for c8_check_self_duplicate on concrete client lists for both
the duplicate case and the unresolved-id case. -/
theorem c8_check_self_duplicate_witness :
    check_self_duplicate ⟨1, 0⟩ [⟨1, 0, 7, 0, "a"⟩, ⟨2, 0, 7, 0, "b"⟩] = Except.ok true ∧
    check_self_duplicate ⟨1, 0⟩ [⟨2, 0, 7, 0, "b"⟩] =
      Except.error QueryError.database_id_error :=
  ⟨((c8_check_self_duplicate ⟨1, 0⟩ [⟨1, 0, 7, 0, "a"⟩, ⟨2, 0, 7, 0, "b"⟩]).2
      (by decide)).mpr (by decide),
   (c8_check_self_duplicate ⟨1, 0⟩ [⟨2, 0, 7, 0, "b"⟩]).1 (by decide)⟩

/-- C9 counterexample: with the watched user present, playback playing and
need_exit configured, the tick issues no playback command even though
playing equals present — it takes the forced-exit branch instead. -/
theorem c9_exit_branch_counterexample :
    tickPresent [42] [⟨1, 1, 42, 0, "x"⟩] = true ∧
    (real_staff_tick [42] true 99 [⟨1, 1, 42, 0, "x"⟩] true).vlc = none ∧
    (real_staff_tick [42] true 99 [⟨1, 1, 42, 0, "x"⟩] true).exited = true := by
  refine ⟨by decide, by decide, by decide⟩

/-- C9 (amended): on every steady-state tick that does not take the
forced-exit branch, playback is toggled to the opposite of presence exactly
when playing equals present and no playback command is issued otherwise;
the forced-exit branch (present together with need_exit) issues no playback
command and stops the loop. -/
theorem c9_tick_toggle (monitor : List Int) (need_exit : Bool) (database_id : Int)
    (clients : List Client) (status : Bool) :
    (¬(tickPresent monitor clients = true ∧ need_exit = true) →
      ((status = tickPresent monitor clients →
        (real_staff_tick monitor need_exit database_id clients status).vlc =
          some (if status then VlcCmd.pause else VlcCmd.play)) ∧
       (status ≠ tickPresent monitor clients →
        (real_staff_tick monitor need_exit database_id clients status).vlc = none))) ∧
    (tickPresent monitor clients = true ∧ need_exit = true →
      (real_staff_tick monitor need_exit database_id clients status).vlc = none ∧
      (real_staff_tick monitor need_exit database_id clients status).exited = true) := by
  constructor
  · intro hno
    have hcond : (tickPresent monitor clients && need_exit) = false := by
      cases h1 : tickPresent monitor clients <;> cases h2 : need_exit <;> simp_all
    constructor
    · intro heq
      simp [real_staff_tick, hcond, heq]
    · intro hne
      simp [real_staff_tick, hcond, hne]
  · intro hyes
    obtain ⟨h1, h2⟩ := hyes
    simp [real_staff_tick, h1, h2]

/-- Witness for c9_tick_toggle: absent watched user and paused companion,
the tick issues exactly the play command. -/
theorem c9_tick_toggle_witness :
    (real_staff_tick [42] false 99 [⟨1, 1, 7, 0, "x"⟩] false).vlc = some VlcCmd.play :=
  ((c9_tick_toggle [42] false 99 [⟨1, 1, 7, 0, "x"⟩] false).1 (by decide)).1 (by decide)

theorem splitOnChar_ne_nil (c : Char) (l : List Char) : splitOnChar c l ≠ [] := by
  cases l with
  | nil => simp [splitOnChar]
  | cons x xs =>
    simp only [splitOnChar]
    cases h : splitOnChar c xs with
    | nil => simp
    | cons y ys =>
      by_cases hx : x = c <;> simp [hx]

theorem traverseParse_ok_length (f : String → Except QueryError α) :
    ∀ (l : List (List Char)) (v : List α),
      traverseParse f l = Except.ok v → v.length = l.length := by
  intro l
  induction l with
  | nil =>
    intro v h
    simp only [traverseParse, Except.ok.injEq] at h
    rw [← h]
    rfl
  | cons x xs ih =>
    intro v h
    simp only [traverseParse] at h
    cases hf : f (String.mk x) with
    | error e =>
      rw [hf] at h
      simp at h
    | ok a =>
      rw [hf] at h
      cases ht : traverseParse f xs with
      | error e =>
        rw [ht] at h
        simp at h
      | ok tl =>
        rw [ht] at h
        have hv : v = a :: tl := by
          simpa using h.symm
        subst hv
        simp [ih tl ht]

theorem decode_rows_nonempty (α : Type) (f : String → Except QueryError α)
    (data : String) (v : List α)
    (h : decode_status_with_result f data = POutcome.ok (some v)) : v ≠ [] := by
  unfold decode_status_with_result at h
  split at h
  · simp at h
  · simp at h
  · split at h
    · rename_i line hfind
      split at h
      · simp at h
      · rename_i v2 htrav
        have hv : v2 = v := by
          simpa using h
        subst hv
        have hlen := traverseParse_ok_length f (splitOnChar '|' line) v2 htrav
        have hne := splitOnChar_ne_nil '|' line
        intro hnil
        rw [hnil] at hlen
        cases hsp : splitOnChar '|' line with
        | nil => exact hne hsp
        | cons z zs =>
          rw [hsp] at hlen
          simp at hlen
    · simp at h

/-- C10 counterexample: the reply "banana" plus an ok status line is
accepted by decode_status and contains a line not starting with `error `,
yet decode_status_with_result returns a parse error, not Some of a record
vector, because the data line fails record decoding. -/
theorem c10_parse_failure_counterexample :
    decode_status "banana\nerror id=0 msg=ok" = POutcome.ok "banana\nerror id=0 msg=ok" ∧
    ((rustLines "banana\nerror id=0 msg=ok").any
      (fun line => !("error ".data.isPrefixOf line))) = true ∧
    decode_status_with_result whoAmIFromQuery "banana\nerror id=0 msg=ok" =
      POutcome.err (QueryError.fromAnyhow "Got parser error") := by
  refine ⟨by decide, by decide, by decide⟩

/-- C10 (amended): whenever decode_status_with_result returns Some of a
record vector the vector is non-empty (splitting the data line on `|`
always yields at least one segment), so who_am_i's extraction of the first
record never aborts; when a segment fails to parse the result is an error,
not Some. -/
theorem c10_nonempty_rows :
    (∀ (α : Type) (f : String → Except QueryError α) (data : String) (v : List α),
      decode_status_with_result f data = POutcome.ok (some v) → v ≠ []) ∧
    (∀ (data : String) (w : List WhoAmI),
      query_operation_decode whoAmIFromQuery data = POutcome.ok w →
        w ≠ [] ∧ who_am_i_decode data = POutcome.ok (w.headD ⟨0, 0⟩)) := by
  refine ⟨decode_rows_nonempty, ?_⟩
  intro data w h
  have hw : decode_status_with_result whoAmIFromQuery data = POutcome.ok (some w) := by
    unfold query_operation_decode at h
    split at h
    · rename_i v hd
      have hv : v = w := by
        simpa using h
      rw [← hv]
      exact hd
    · simp at h
    · simp at h
    · simp at h
  have hne : w ≠ [] := decode_rows_nonempty WhoAmI whoAmIFromQuery data w hw
  cases w with
  | nil => exact absurd rfl hne
  | cons a t =>
    refine ⟨hne, ?_⟩
    unfold who_am_i_decode
    rw [h]
    rfl

/-- Witness for c10_nonempty_rows at a concrete well-formed whoami reply. -/
theorem c10_nonempty_rows_witness :
    ([(⟨5, 7⟩ : WhoAmI)] ≠ []) ∧
    who_am_i_decode "clid=5 cid=7\nerror id=0 msg=ok" = POutcome.ok ⟨5, 7⟩ :=
  c10_nonempty_rows.2 "clid=5 cid=7\nerror id=0 msg=ok" [⟨5, 7⟩] (by decide)

end VCM
